import Mathlib

/-!
# Shallow embedding of the skywalker crypto-dashboard frontend

This file embeds the parts of the repository's JavaScript/JSX source that the
verified properties are about:

* `frontend/src/utils/formatters.js` — `formatPrice`, `formatPercentage`;
* the badge-classification helpers of `GainersTable.jsx`, `LosersTable.jsx`,
  `TopBannerScroll.jsx`, `BottomBannerScroll.jsx`, `GainersTable1Min.jsx`;
* the per-widget fetch/normalize/fallback state step of each widget;
* the countdown logic of `app.jsx`.

Modelling conventions:
* JS strings are `List Char`; JS numbers are `ℚ` wrapped in `JSNum`, which adds
  the non-finite values (`NaN`, `±Infinity`) that `Number.isFinite` filters out.
  All numeric literals appearing in the source are exactly representable, so the
  rational model agrees with IEEE-754 doubles at every evaluation point used here.
* `Number.prototype.toFixed` and `Number.prototype.toExponential` are modelled
  after their ECMA-262 definitions (sign extracted first, then the scaled value
  rounded to the nearest integer with ties away from zero).
* A widget's `useEffect` fetch cycle is modelled as a step function from the
  widget's state and the fetch outcome (resolved response or thrown error) to
  the next state, mirroring the `try { ... } catch { ... }` body of the source.
-/

/-- JS strings, modelled as lists of characters. -/
abbrev JSStr := List Char

/-- A JS number: a finite rational or one of the non-finite values. -/
inductive JSNum where
  | nan
  | posInf
  | negInf
  | num (q : ℚ)
deriving DecidableEq

/-- `Number.isFinite`. -/
def JSNum.isFinite : JSNum → Bool
  | .num _ => true
  | _ => false

/-! ## Decimal digit rendering (model of JS number-to-string pieces) -/

/-- The character for a decimal digit. -/
def digitChar (n : ℕ) : Char := Char.ofNat (48 + n)

/-- Decimal digits of `n`, most significant first; structural recursion on fuel. -/
def natCharsAux : ℕ → ℕ → List Char
  | 0, _ => []
  | fuel + 1, n =>
    if n < 10 then [digitChar n]
    else natCharsAux fuel (n / 10) ++ [digitChar (n % 10)]

/-- Decimal representation of a natural number. -/
def natChars (n : ℕ) : List Char := natCharsAux (n + 1) n

/-- Left-pad a digit string with `'0'` up to length `d`. -/
def padZeros (d : ℕ) (l : List Char) : List Char :=
  List.replicate (d - l.length) '0' ++ l

/-- `⌊log₁₀ n⌋` for `n ≥ 1`, by structural recursion on fuel. -/
def natLog10Aux : ℕ → ℕ → ℕ
  | 0, _ => 0
  | fuel + 1, n => if n < 10 then 0 else natLog10Aux fuel (n / 10) + 1

/-- `⌊log₁₀ n⌋` (0 for `n = 0`). -/
def natLog10 (n : ℕ) : ℕ := natLog10Aux n n

/-- The least `k` with `t ≤ 10 ^ k`. -/
def clog10 (t : ℕ) : ℕ := if t ≤ 1 then 0 else natLog10 (t - 1) + 1

/-- Render the rounded scaled value `n` with `d` digits after the decimal
point (the digit-string part of `toFixed`). -/
def toFixedBody (n d : ℕ) : JSStr :=
  if d = 0 then natChars (n / 10 ^ d)
  else natChars (n / 10 ^ d) ++ '.' :: padZeros d (natChars (n % 10 ^ d))

/-- `Number.prototype.toFixed` (ECMA-262): extract the sign, round
`|q| * 10^d` to the nearest integer (ties away from zero), and render with `d`
digits after the decimal point. -/
def toFixed (q : ℚ) (d : ℕ) : JSStr :=
  if q < 0 then '-' :: toFixedBody (⌊|q| * (10 : ℚ) ^ d + 1 / 2⌋).toNat d
  else toFixedBody (⌊|q| * (10 : ℚ) ^ d + 1 / 2⌋).toNat d

/-- The exponent `toExponential` uses for a positive value: the unique `e`
with `10^e ≤ q < 10^(e+1)`. -/
def log10floor (q : ℚ) : ℤ :=
  if 1 ≤ q then (natLog10 (⌊q⌋).toNat : ℤ)
  else -(clog10 (⌈1 / q⌉).toNat : ℤ)

/-- Mantissa digit string of `toExponential`: the digits of the rounded
mantissa `n` with a decimal point after the leading digit. -/
def sciMantissa (n fd : ℕ) : JSStr :=
  match natChars n with
  | [] => []
  | c :: rest => if fd = 0 then [c] else c :: '.' :: rest

/-- The mantissa of `toExponential`, scaled to `fd + 1` integer digits and
rounded to nearest (ties away from zero). -/
def sciRound (q : ℚ) (fd : ℕ) : ℕ :=
  (⌊|q| * (10 : ℚ) ^ ((fd : ℤ) - log10floor |q|) + 1 / 2⌋).toNat

/-- The mantissa digits actually printed, after absorbing a rounding overflow
(`9.99…` rounding up to `10.0…`) into the exponent. -/
def sciN (q : ℚ) (fd : ℕ) : ℕ :=
  if sciRound q fd = 10 ^ (fd + 1) then 10 ^ fd else sciRound q fd

/-- The exponent actually printed by `toExponential`. -/
def sciE (q : ℚ) (fd : ℕ) : ℤ :=
  if sciRound q fd = 10 ^ (fd + 1) then log10floor |q| + 1 else log10floor |q|

/-- `Number.prototype.toExponential` (ECMA-262) with `fd` fraction digits:
`d.dd…e±k`, the mantissa rounded to nearest with ties away from zero. -/
def toExponential (q : ℚ) (fd : ℕ) : JSStr :=
  if q = 0 then
    digitChar 0 :: (if fd = 0 then [] else '.' :: List.replicate fd '0') ++ ['e', '+', digitChar 0]
  else
    (if q < 0 then ['-'] else []) ++ sciMantissa (sciN q fd) fd ++
      'e' :: (if 0 ≤ sciE q fd then ['+'] else ['-']) ++ natChars (sciE q fd).natAbs

/-! ## `frontend/src/utils/formatters.js` -/

/-- `formatPrice` from `utils/formatters.js`. -/
def formatPrice : JSNum → JSStr
  | .num price =>
    if 1 ≤ price then '$' :: toFixed price 2
    else if 1 / 10 ≤ price then '$' :: toFixed price 4
    else if 1 / 100 ≤ price then '$' :: toFixed price 5
    else if 1 / 1000 ≤ price then '$' :: toFixed price 6
    else if 1 / 10000 ≤ price then '$' :: toFixed price 8
    else if 1 / 100000 ≤ price then '$' :: toFixed price 9
    else if 1 / 1000000 ≤ price then '$' :: toFixed price 10
    else '$' :: toExponential price 2
  | _ => "N/A".toList

/-- `formatPercentage` from `utils/formatters.js`. -/
def formatPercentage : JSNum → JSStr
  | .num percentage =>
    let absPercentage := |percentage|
    if 10 ≤ absPercentage then toFixed percentage 1 ++ ['%']
    else if 1 ≤ absPercentage then toFixed percentage 2 ++ ['%']
    else if 1 / 10 ≤ absPercentage then toFixed percentage 3 ++ ['%']
    else if 1 / 100 ≤ absPercentage then toFixed percentage 4 ++ ['%']
    else if 0 < absPercentage then toFixed percentage 5 ++ ['%']
    else "0.00%".toList
  | _ => "N/A".toList

/-! ## Badge classification helpers -/

namespace GainersTable

/-- `getBadgeText` from `GainersTable.jsx` (identical in `LosersTable.jsx` and
`GainersTable1Min.jsx`): classify by `Math.abs(change)` against 5 and 2. -/
def getBadgeText (change : ℚ) : JSStr :=
  if 5 ≤ |change| then "STRONG HIGH".toList
  else if 2 ≤ |change| then "STRONG".toList
  else "MODERATE".toList

end GainersTable

namespace TopBannerScroll

/-- `getBadgeStyle` from `TopBannerScroll.jsx`: same thresholds as the tables. -/
def getBadgeStyle (change : ℚ) : JSStr :=
  if 5 ≤ |change| then "STRONG HIGH".toList
  else if 2 ≤ |change| then "STRONG".toList
  else "MODERATE".toList

end TopBannerScroll

namespace BottomBannerScroll

/-- `getBadgeStyle` from `BottomBannerScroll.jsx`: classify by traded volume. -/
def getBadgeStyle (volume : ℚ) : JSStr :=
  if 10000000 ≤ volume then "HIGH VOL".toList
  else if 1000000 ≤ volume then "MODERATE".toList
  else if 100000 ≤ volume then "STRONG".toList
  else "LOW VOL".toList

end BottomBannerScroll

/-! ## Symbol normalization and the exchange link -/

/-- `String.prototype.replace` with a string pattern: replace (here: delete,
the source always replaces with `''`) the first occurrence of `pat` only. -/
def replaceFirst (pat : JSStr) (s : JSStr) : JSStr :=
  match s with
  | [] => []
  | c :: rest =>
    if pat.isPrefixOf (c :: rest) then (c :: rest).drop pat.length
    else c :: replaceFirst pat rest

/-- Whether `pat` occurs as a contiguous substring of `s`. -/
def hasSubstr (pat : JSStr) (s : JSStr) : Bool :=
  match s with
  | [] => pat.isEmpty
  | c :: rest => pat.isPrefixOf (c :: rest) || hasSubstr pat rest

/-- `item.symbol?.replace('-USD', '') || 'N/A'`: a missing symbol, or one whose
replacement result is the empty (falsy) string, becomes the placeholder. -/
def normalizeSymbol (sym : Option JSStr) : JSStr :=
  match sym with
  | none => "N/A".toList
  | some s =>
    if replaceFirst "-USD".toList s = [] then "N/A".toList
    else replaceFirst "-USD".toList s

/-- `Char` lowercasing as `String.prototype.toLowerCase` acts on ASCII. -/
def charLower (c : Char) : Char :=
  if 65 ≤ c.toNat ∧ c.toNat ≤ 90 then Char.ofNat (c.toNat + 32) else c

/-- `String.prototype.toLowerCase` on ASCII strings. -/
def strLower (s : JSStr) : JSStr := s.map charLower

/-- The `coinbaseUrl` template literal of `GainersTable.jsx` line 101 (the same
expression appears in `LosersTable.jsx` and `GainersTable1Min.jsx`):
`https://www.coinbase.com/advanced-trade/spot/${item.symbol.toLowerCase()}-USD`. -/
def coinbaseUrl (symbol : JSStr) : JSStr :=
  "https://www.coinbase.com/advanced-trade/spot/".toList ++ strLower symbol ++ "-USD".toList

/-! ## Raw API items and displayed rows -/

/-- A raw item of a backend response's `data` array. Every field can be absent
(`none` models a missing JSON field / `undefined`). -/
structure RawItem where
  rank : Option ℚ := none
  symbol : Option JSStr := none
  current_price : Option ℚ := none
  price_change_percentage_3min : Option ℚ := none
  price_change_percentage_1min : Option ℚ := none
  price_change_1h : Option ℚ := none
  volume_24h : Option ℚ := none
deriving DecidableEq

/-- JS `x || d` on an optional numeric field: `undefined` and `0` are falsy. -/
def numOr (o : Option ℚ) (d : ℚ) : ℚ :=
  match o with
  | none => d
  | some v => if v = 0 then d else v

/-- A displayed table/banner row (the `MarketRow` shape of the spec). -/
structure Row where
  rank : ℚ
  symbol : JSStr
  price : ℚ
  change : ℚ
  badge : JSStr
deriving DecidableEq

/-- A displayed row of the bottom (volume) banner. -/
structure VolRow where
  rank : ℚ
  symbol : JSStr
  price : ℚ
  volume_change : ℚ
  volume_24h : ℚ
  badge : JSStr
deriving DecidableEq

/-- `arr.map((item, index) => f index item)`. -/
def jsMapIdx (f : ℕ → RawItem → α) : ℕ → List RawItem → List α
  | _, [] => []
  | i, item :: rest => f i item :: jsMapIdx f (i + 1) rest

/-- The outcome of one `fetchData` call: the promise rejected (network/parse
error) or resolved with a response whose `data` field is either a well-formed
array (`some items`) or missing/not an array (`none`). -/
inductive FetchOutcome where
  | failure
  | success (resp : Option (List RawItem))

/-- Widget-local React state of the three table components. -/
structure TableState where
  data : List Row
  loading : Bool
  error : Option JSStr
deriving DecidableEq

namespace GainersTable

/-- One element of the `response.data.map(...)` in `fetchGainersData`. -/
def normalizeItem (index : ℕ) (item : RawItem) : Row :=
  { rank := numOr item.rank (index + 1)
    symbol := normalizeSymbol item.symbol
    price := numOr item.current_price 0
    change := numOr item.price_change_percentage_3min 0
    badge := getBadgeText |numOr item.price_change_percentage_3min 0| }

/-- `response.data.map((item, index) => ({...}))` of `fetchGainersData`. -/
def normalize (l : List RawItem) : List Row := jsMapIdx normalizeItem 0 l

/-- The hardcoded fallback rows of the `catch` branch of `fetchGainersData`
(note: their `symbol` keeps the `-USD` suffix — the fallback literals are not
run through the normalizer). -/
def fallbackData : List Row :=
  [ { rank := 1, symbol := "BTC-USD".toList, price := 65000, change := 5.23,
      badge := getBadgeText |(5.23 : ℚ)| },
    { rank := 2, symbol := "ETH-USD".toList, price := 3500, change := 3.15,
      badge := getBadgeText |(3.15 : ℚ)| },
    { rank := 3, symbol := "ADA-USD".toList, price := 0.45, change := 1.89,
      badge := getBadgeText |(1.89 : ℚ)| },
    { rank := 4, symbol := "SOL-USD".toList, price := 150, change := 2.50,
      badge := getBadgeText |(2.50 : ℚ)| },
    { rank := 5, symbol := "XRP-USD".toList, price := 0.52, change := 0.98,
      badge := getBadgeText |(0.98 : ℚ)| },
    { rank := 6, symbol := "DOGE-USD".toList, price := 0.15, change := 1.20,
      badge := getBadgeText |(1.20 : ℚ)| },
    { rank := 7, symbol := "LTC-USD".toList, price := 70, change := 0.75,
      badge := getBadgeText |(0.75 : ℚ)| } ]

/-- Initial state: `useState([])`, `useState(true)`, `useState(null)`. -/
def init : TableState := { data := [], loading := true, error := none }

/-- One run of `fetchGainersData` as a state transition. -/
def step (st : TableState) (o : FetchOutcome) : TableState :=
  match o with
  | .success (some l) =>
    if 0 < l.length then
      { st with data := (normalize l).take 7, loading := false }
    else
      { st with data := [], loading := false }
  | .success none => { st with data := [], loading := false }
  | .failure =>
    { data := fallbackData, loading := false, error := some "fetch failed".toList }

end GainersTable

namespace LosersTable

/-- One element of the `response.data.map(...)` in `fetchLosersData`. -/
def normalizeItem (index : ℕ) (item : RawItem) : Row :=
  { rank := numOr item.rank (index + 1)
    symbol := normalizeSymbol item.symbol
    price := numOr item.current_price 0
    change := numOr item.price_change_percentage_3min 0
    badge := GainersTable.getBadgeText |numOr item.price_change_percentage_3min 0| }

/-- `response.data.map((item, index) => ({...}))` of `fetchLosersData`. -/
def normalize (l : List RawItem) : List Row := jsMapIdx normalizeItem 0 l

/-- The fallback rows of the empty-response branch of `fetchLosersData`. -/
def emptyFallbackData : List Row :=
  [ { rank := 1, symbol := "PEPE".toList, price := 0.00000996, change := -2.45,
      badge := "MODERATE".toList },
    { rank := 2, symbol := "SHIB".toList, price := 0.00002156, change := -1.82,
      badge := "MODERATE".toList },
    { rank := 3, symbol := "FLOKI".toList, price := 0.000234, change := -0.95,
      badge := "MODERATE".toList },
    { rank := 4, symbol := "BONK".toList, price := 0.00001717, change := -0.67,
      badge := "MODERATE".toList },
    { rank := 5, symbol := "WIF".toList, price := 2.543, change := -0.23,
      badge := "MODERATE".toList },
    { rank := 6, symbol := "NEW1".toList, price := 1.234, change := -0.45,
      badge := "MODERATE".toList },
    { rank := 7, symbol := "NEW2".toList, price := 0.567, change := -0.32,
      badge := "MODERATE".toList } ]

/-- The fallback rows of the `catch` branch of `fetchLosersData`. -/
def errorFallbackData : List Row :=
  [ { rank := 1, symbol := "SEI-USD".toList, price := 0.2244, change := -12.89,
      badge := GainersTable.getBadgeText |(-12.89 : ℚ)| },
    { rank := 2, symbol := "AVAX-USD".toList, price := 24.56, change := -8.45,
      badge := GainersTable.getBadgeText |(-8.45 : ℚ)| },
    { rank := 3, symbol := "DOT-USD".toList, price := 4.78, change := -6.23,
      badge := GainersTable.getBadgeText |(-6.23 : ℚ)| },
    { rank := 4, symbol := "ATOM-USD".toList, price := 7.89, change := -9.34,
      badge := GainersTable.getBadgeText |(-9.34 : ℚ)| },
    { rank := 5, symbol := "NEAR-USD".toList, price := 3.45, change := -5.67,
      badge := GainersTable.getBadgeText |(-5.67 : ℚ)| },
    { rank := 6, symbol := "NEW1".toList, price := 1.234, change := -0.45,
      badge := GainersTable.getBadgeText |(-0.45 : ℚ)| },
    { rank := 7, symbol := "NEW2".toList, price := 0.567, change := -0.32,
      badge := GainersTable.getBadgeText |(-0.32 : ℚ)| } ]

/-- Initial widget state. -/
def init : TableState := { data := [], loading := true, error := none }

/-- One run of `fetchLosersData` as a state transition (note: unlike the
gainers table, the empty-response branch is guarded by `data.length === 0`). -/
def step (st : TableState) (o : FetchOutcome) : TableState :=
  match o with
  | .success (some l) =>
    if 0 < l.length then
      { st with data := (normalize l).take 7, loading := false }
    else if st.data.length = 0 then
      { st with data := emptyFallbackData, loading := false }
    else
      { st with loading := false }
  | .success none =>
    if st.data.length = 0 then
      { st with data := emptyFallbackData, loading := false }
    else
      { st with loading := false }
  | .failure =>
    { data := errorFallbackData, loading := false, error := some "fetch failed".toList }

end LosersTable

namespace GainersTable1Min

/-- One element of the `response.data.map(...)` in the 1-minute table's
`fetchGainersData` (uses `price_change_percentage_1min`). -/
def normalizeItem (index : ℕ) (item : RawItem) : Row :=
  { rank := numOr item.rank (index + 1)
    symbol := normalizeSymbol item.symbol
    price := numOr item.current_price 0
    change := numOr item.price_change_percentage_1min 0
    badge := GainersTable.getBadgeText |numOr item.price_change_percentage_1min 0| }

/-- The map over `response.data` of the 1-minute gainers fetch. -/
def normalize (l : List RawItem) : List Row := jsMapIdx normalizeItem 0 l

/-- The fallback rows of the empty-response branch (stripped symbols). -/
def emptyFallbackData : List Row :=
  [ { rank := 1, symbol := "BTC".toList, price := 65000, change := 5.23,
      badge := "STRONG HIGH".toList },
    { rank := 2, symbol := "ETH".toList, price := 3500, change := 3.15,
      badge := "STRONG".toList },
    { rank := 3, symbol := "ADA".toList, price := 0.45, change := 1.89,
      badge := "MODERATE".toList },
    { rank := 4, symbol := "SOL".toList, price := 150, change := 2.50,
      badge := "STRONG".toList },
    { rank := 5, symbol := "XRP".toList, price := 0.52, change := 0.98,
      badge := "MODERATE".toList },
    { rank := 6, symbol := "DOGE".toList, price := 0.15, change := 1.20,
      badge := "MODERATE".toList },
    { rank := 7, symbol := "LTC".toList, price := 70, change := 0.75,
      badge := "MODERATE".toList } ]

/-- The fallback rows of the `catch` branch (unstripped `-USD` symbols). -/
def errorFallbackData : List Row :=
  [ { rank := 1, symbol := "BTC-USD".toList, price := 65000, change := 5.23,
      badge := GainersTable.getBadgeText |(5.23 : ℚ)| },
    { rank := 2, symbol := "ETH-USD".toList, price := 3500, change := 3.15,
      badge := GainersTable.getBadgeText |(3.15 : ℚ)| },
    { rank := 3, symbol := "ADA-USD".toList, price := 0.45, change := 1.89,
      badge := GainersTable.getBadgeText |(1.89 : ℚ)| },
    { rank := 4, symbol := "SOL-USD".toList, price := 150, change := 2.50,
      badge := GainersTable.getBadgeText |(2.50 : ℚ)| },
    { rank := 5, symbol := "XRP-USD".toList, price := 0.52, change := 0.98,
      badge := GainersTable.getBadgeText |(0.98 : ℚ)| },
    { rank := 6, symbol := "DOGE-USD".toList, price := 0.15, change := 1.20,
      badge := GainersTable.getBadgeText |(1.20 : ℚ)| },
    { rank := 7, symbol := "LTC-USD".toList, price := 70, change := 0.75,
      badge := GainersTable.getBadgeText |(0.75 : ℚ)| } ]

/-- Initial widget state. -/
def init : TableState := { data := [], loading := true, error := none }

/-- One run of the 1-minute table's fetch as a state transition. -/
def step (st : TableState) (o : FetchOutcome) : TableState :=
  match o with
  | .success (some l) =>
    if 0 < l.length then
      { st with data := (normalize l).take 7, loading := false }
    else if st.data.length = 0 then
      { st with data := emptyFallbackData, loading := false }
    else
      { st with loading := false }
  | .success none =>
    if st.data.length = 0 then
      { st with data := emptyFallbackData, loading := false }
    else
      { st with loading := false }
  | .failure =>
    { data := errorFallbackData, loading := false, error := some "fetch failed".toList }

/-- `data.slice(0, isExpanded ? data.length : 3)` — the rows actually rendered
by the 1-minute gainers table. -/
def visibleRows (isExpanded : Bool) (data : List Row) : List Row :=
  data.take (if isExpanded then data.length else 3)

end GainersTable1Min

namespace TopBannerScroll

/-- One element of the `response.data.map(...)` in `fetchTopBannerData`
(`rank` is always `index + 1` here). -/
def normalizeItem (index : ℕ) (item : RawItem) : Row :=
  { rank := (index + 1 : ℕ)
    symbol := normalizeSymbol item.symbol
    price := numOr item.current_price 0
    change := numOr item.price_change_1h 0
    badge := getBadgeStyle |numOr item.price_change_1h 0| }

/-- The map over `response.data` of the top-banner fetch. -/
def normalize (l : List RawItem) : List Row := jsMapIdx normalizeItem 0 l

/-- The hardcoded fallback rows (identical in both guarded branches). -/
def fallbackData : List Row :=
  [ { rank := 1, symbol := "SUKU".toList, price := 0.0295, change := 3.51,
      badge := "STRONG".toList },
    { rank := 2, symbol := "HNT".toList, price := 2.30, change := 0.97,
      badge := "MODERATE".toList },
    { rank := 3, symbol := "OCEAN".toList, price := 0.3162, change := 0.60,
      badge := "MODERATE".toList },
    { rank := 4, symbol := "PENGU".toList, price := 0.01605, change := 0.56,
      badge := "MODERATE".toList },
    { rank := 5, symbol := "MUSE".toList, price := 7.586, change := 0.53,
      badge := "MODERATE".toList } ]

/-- One run of `fetchTopBannerData` as a transition on the `data` state (this
widget has no `loading`/`error` state). Both the empty-response branch and
the `catch` branch are guarded by `data.length === 0`. -/
def step (data : List Row) (o : FetchOutcome) : List Row :=
  match o with
  | .success (some l) =>
    if 0 < l.length then (normalize l).take 20
    else if data.length = 0 then fallbackData else data
  | .success none => if data.length = 0 then fallbackData else data
  | .failure => if data.length = 0 then fallbackData else data

/-- The banner renders its row list twice back-to-back (the `data.map` for the
first set followed by the duplicate set for seamless scrolling). -/
def rendered (data : List Row) : List Row := data ++ data

end TopBannerScroll

namespace BottomBannerScroll

/-- One element of the `response.data.map(...)` in `fetchBottomBannerData`. -/
def normalizeItem (index : ℕ) (item : RawItem) : VolRow :=
  { rank := (index + 1 : ℕ)
    symbol := normalizeSymbol item.symbol
    price := numOr item.current_price 0
    volume_change := numOr item.price_change_1h 0
    volume_24h := numOr item.volume_24h 0
    badge := getBadgeStyle (numOr item.volume_24h 0) }

/-- The map over `response.data` of the bottom-banner fetch. -/
def normalize (l : List RawItem) : List VolRow := jsMapIdx normalizeItem 0 l

/-- The hardcoded fallback rows (identical in both guarded branches). -/
def fallbackData : List VolRow :=
  [ { rank := 1, symbol := "SUKU".toList, price := 0.0295, volume_change := 3.51,
      volume_24h := 25000000, badge := "MODERATE".toList },
    { rank := 2, symbol := "HNT".toList, price := 2.30, volume_change := 0.97,
      volume_24h := 18000000, badge := "MODERATE".toList },
    { rank := 3, symbol := "OCEAN".toList, price := 0.3162, volume_change := 0.60,
      volume_24h := 15000000, badge := "MODERATE".toList },
    { rank := 4, symbol := "PENGU".toList, price := 0.01605, volume_change := 0.56,
      volume_24h := 12000000, badge := "MODERATE".toList },
    { rank := 5, symbol := "MUSE".toList, price := 7.586, volume_change := 0.53,
      volume_24h := 10000000, badge := "MODERATE".toList } ]

/-- One run of `fetchBottomBannerData` as a transition on the `data` state.
Both failure modes are guarded by `data.length === 0`. -/
def step (data : List VolRow) (o : FetchOutcome) : List VolRow :=
  match o with
  | .success (some l) =>
    if 0 < l.length then (normalize l).take 20
    else if data.length = 0 then fallbackData else data
  | .success none => if data.length = 0 then fallbackData else data
  | .failure => if data.length = 0 then fallbackData else data

/-- The bottom banner also renders its row list twice back-to-back. -/
def rendered (data : List VolRow) : List VolRow := data ++ data

end BottomBannerScroll

/-! ## `app.jsx`: the AppShell countdown -/

namespace App

/-- `const POLL_INTERVAL = 30000`. -/
def POLL_INTERVAL : ℤ := 30000

/-- The events that touch the countdown state: the 1-second interval tick, the
30-second refresh interval tick, and the manual refresh button. -/
inductive CountdownEvent where
  | secondTick
  | refreshTick
  | manualRefresh

/-- How each event transforms the countdown. `secondTick` is
`setCountdown(prev => (prev > 1 ? prev - 1 : POLL_INTERVAL / 1000))`; the other
two are `setCountdown(POLL_INTERVAL / 1000)`. -/
def countdownStep (c : ℤ) : CountdownEvent → ℤ
  | .secondTick => if c > 1 then c - 1 else POLL_INTERVAL / 1000
  | .refreshTick => POLL_INTERVAL / 1000
  | .manualRefresh => POLL_INTERVAL / 1000

/-- The countdown after an arbitrary interleaving of events, starting from the
initial `useState(POLL_INTERVAL / 1000)`. -/
def runCountdown (evs : List CountdownEvent) : ℤ :=
  evs.foldl countdownStep (POLL_INTERVAL / 1000)

end App

/-! ### Evaluation lemmas

`ℚ` arithmetic does not reduce definitionally (its normalization runs through
well-founded `Nat.gcd`), so concrete evaluations go through these lemmas: the
rational side is discharged by `norm_num` and the digit side by `decide`. -/

lemma toFixed_of_nonneg (q : ℚ) (d n : ℕ) (h0 : 0 ≤ q)
    (hn : ⌊q * (10 : ℚ) ^ d + 1 / 2⌋ = (n : ℤ)) :
    toFixed q d = toFixedBody n d := by
  unfold toFixed
  rw [abs_of_nonneg h0, if_neg (not_lt.mpr h0), hn]
  simp

lemma toFixed_of_neg (q : ℚ) (d n : ℕ) (h0 : q < 0)
    (hn : ⌊-q * (10 : ℚ) ^ d + 1 / 2⌋ = (n : ℤ)) :
    toFixed q d = '-' :: toFixedBody n d := by
  unfold toFixed
  rw [abs_of_neg h0, if_pos h0, hn]
  simp

lemma toExponential_of_small (q : ℚ) (fd t n : ℕ)
    (h0 : 0 < q) (h1 : ¬ 1 ≤ q)
    (ht : ⌈1 / q⌉ = (t : ℤ))
    (hn : ⌊q * (10 : ℚ) ^ ((fd : ℤ) + (clog10 t : ℤ)) + 1 / 2⌋ = (n : ℤ))
    (hov : n ≠ 10 ^ (fd + 1)) (hk : clog10 t ≠ 0) :
    toExponential q fd = sciMantissa n fd ++ 'e' :: '-' :: natChars (clog10 t) := by
  have hlog : log10floor |q| = -(clog10 t : ℤ) := by
    rw [abs_of_pos h0]
    unfold log10floor
    rw [if_neg h1, ht]
    simp
  have hround : sciRound q fd = n := by
    unfold sciRound
    rw [hlog, abs_of_pos h0]
    have he : (fd : ℤ) - -(clog10 t : ℤ) = (fd : ℤ) + (clog10 t : ℤ) := by ring
    rw [he, hn]
    simp
  have hovE : sciRound q fd ≠ 10 ^ (fd + 1) := by rw [hround]; exact hov
  have hN : sciN q fd = n := by unfold sciN; rw [if_neg hovE, hround]
  have hE : sciE q fd = -(clog10 t : ℤ) := by unfold sciE; rw [if_neg hovE, hlog]
  unfold toExponential
  rw [if_neg h0.ne', if_neg (not_lt.mpr h0.le), hN, hE]
  have hneg : ¬ (0 : ℤ) ≤ -(clog10 t : ℤ) := by omega
  rw [if_neg hneg]
  simp

/-! ## Digit-string lemmas -/

lemma digitChar_isDigit (m : ℕ) (h : m < 10) : (digitChar m).isDigit = true := by
  interval_cases m <;> decide

lemma natCharsAux_all_isDigit (fuel n : ℕ) :
    (natCharsAux fuel n).all Char.isDigit = true := by
  induction fuel generalizing n with
  | zero => rfl
  | succ f ih =>
    unfold natCharsAux
    split
    · next h => simp [digitChar_isDigit n h]
    · next h =>
      rw [List.all_append]
      simp [ih, digitChar_isDigit (n % 10) (Nat.mod_lt _ (by norm_num))]

lemma natChars_all_isDigit (n : ℕ) : (natChars n).all Char.isDigit = true :=
  natCharsAux_all_isDigit _ _

lemma natCharsAux_ne_nil (fuel n : ℕ) (h : 0 < fuel) : natCharsAux fuel n ≠ [] := by
  cases fuel with
  | zero => omega
  | succ f =>
    unfold natCharsAux
    split
    · simp
    · simp

lemma natChars_ne_nil (n : ℕ) : natChars n ≠ [] := natCharsAux_ne_nil _ _ (by omega)

lemma natCharsAux_length_le (fuel : ℕ) : ∀ (n d : ℕ), 0 < d → n < 10 ^ d → n < fuel →
    (natCharsAux fuel n).length ≤ d := by
  induction fuel with
  | zero => intro n d _ _ hf; omega
  | succ f ih =>
    intro n d hd hn hf
    unfold natCharsAux
    split
    · next h => simpa using hd
    · next h =>
      push_neg at h
      have hd2 : 2 ≤ d := by
        by_contra hc
        push_neg at hc
        have hd1 : d = 1 := by omega
        subst hd1
        rw [pow_one] at hn
        omega
      have h1 : n / 10 < 10 ^ (d - 1) := by
        rw [Nat.div_lt_iff_lt_mul (by norm_num : 0 < 10)]
        have : 10 ^ d = 10 ^ (d - 1) * 10 := by
          rw [← pow_succ]
          congr 1
          omega
        omega
      have h2 : n / 10 < f := by
        have := Nat.div_lt_self (by omega : 0 < n) (by norm_num : 1 < 10)
        omega
      have h3 := ih (n / 10) (d - 1) (by omega) h1 h2
      rw [List.length_append]
      simp only [List.length_cons, List.length_nil]
      omega

lemma natChars_length_le (n d : ℕ) (hd : 0 < d) (hn : n < 10 ^ d) :
    (natChars n).length ≤ d :=
  natCharsAux_length_le _ _ _ hd hn (by omega)

lemma padZeros_length (d : ℕ) (l : List Char) (h : l.length ≤ d) :
    (padZeros d l).length = d := by
  simp only [padZeros, List.length_append, List.length_replicate]
  omega

lemma padZeros_all_isDigit (d : ℕ) (l : List Char) (h : l.all Char.isDigit = true) :
    (padZeros d l).all Char.isDigit = true := by
  rw [padZeros, List.all_append, h, Bool.and_true]
  rw [List.all_eq_true]
  intro c hc
  rw [List.mem_replicate] at hc
  rw [hc.2]
  decide

/-- Structure of `toFixed` output for `d ≥ 1`: something, a decimal point, and
exactly `d` digits. -/
lemma toFixed_decomp (q : ℚ) (d : ℕ) (hd : d ≠ 0) :
    ∃ mid frac, toFixed q d = mid ++ '.' :: frac ∧ frac.length = d ∧
      frac.all Char.isDigit = true ∧
      mid.all (fun c => c.isDigit || c = '-') = true := by
  unfold toFixed toFixedBody
  simp only [if_neg hd]
  set n : ℕ := (⌊|q| * (10 : ℚ) ^ d + 1 / 2⌋).toNat with hn
  have hfrac_len : (padZeros d (natChars (n % 10 ^ d))).length = d :=
    padZeros_length _ _ (natChars_length_le _ _ (by omega)
      (Nat.mod_lt _ (by positivity)))
  have hfrac_dig : (padZeros d (natChars (n % 10 ^ d))).all Char.isDigit = true :=
    padZeros_all_isDigit _ _ (natChars_all_isDigit _)
  have hmid : (natChars (n / 10 ^ d)).all (fun c => c.isDigit || c = '-') = true := by
    have := natChars_all_isDigit (n / 10 ^ d)
    rw [List.all_eq_true] at this ⊢
    intro c hc
    rw [this c hc]
    rfl
  by_cases hq : q < 0
  · refine ⟨'-' :: natChars (n / 10 ^ d), padZeros d (natChars (n % 10 ^ d)), ?_, hfrac_len,
      hfrac_dig, ?_⟩
    · rw [if_pos hq]
      simp
    · simpa using hmid
  · exact ⟨natChars (n / 10 ^ d), padZeros d (natChars (n % 10 ^ d)),
      by rw [if_neg hq], hfrac_len, hfrac_dig, hmid⟩

/-- The positive-value version: the part before the point is all digits. -/
lemma toFixed_decomp_nonneg (q : ℚ) (d : ℕ) (h0 : 0 ≤ q) (hd : d ≠ 0) :
    ∃ mid frac, toFixed q d = mid ++ '.' :: frac ∧ frac.length = d ∧
      frac.all Char.isDigit = true ∧ mid.all Char.isDigit = true := by
  unfold toFixed toFixedBody
  simp only [if_neg hd, if_neg (not_lt.mpr h0)]
  set n : ℕ := (⌊|q| * (10 : ℚ) ^ d + 1 / 2⌋).toNat with hn
  exact ⟨natChars (n / 10 ^ d), padZeros d (natChars (n % 10 ^ d)), rfl,
    padZeros_length _ _ (natChars_length_le _ _ (by omega) (Nat.mod_lt _ (by positivity))),
    padZeros_all_isDigit _ _ (natChars_all_isDigit _), natChars_all_isDigit _⟩

/-! ## Symbol-handling lemmas -/

lemma replaceFirst_of_not_hasSubstr (pat s : JSStr) (h : hasSubstr pat s = false) :
    replaceFirst pat s = s := by
  induction s with
  | nil => rfl
  | cons c rest ih =>
    unfold hasSubstr at h
    rw [Bool.or_eq_false_iff] at h
    unfold replaceFirst
    rw [if_neg (by simp [h.1]), ih h.2]

/-- If `-USD` is a prefix of `base ++ -USD`, it already was a prefix of `base`
(or `base` is empty): the pattern cannot straddle the boundary, because no
proper suffix of `-USD` is a prefix of it. -/
lemma usd_prefix_append (base : JSStr)
    (h : ("-USD".toList).isPrefixOf (base ++ "-USD".toList) = true) :
    base = [] ∨ ("-USD".toList).isPrefixOf base = true := by
  match base with
  | [] => exact Or.inl rfl
  | [a] =>
    simp [List.isPrefixOf, Bool.and_eq_true] at h
  | [a, b] =>
    simp [List.isPrefixOf, Bool.and_eq_true] at h
  | [a, b, c] =>
    simp [List.isPrefixOf, Bool.and_eq_true] at h
  | a :: b :: c :: d :: rest =>
    right
    simp only [List.cons_append, List.isPrefixOf, Bool.and_eq_true] at h ⊢
    tauto

lemma replaceFirst_strip (base : JSStr) (h : hasSubstr "-USD".toList base = false) :
    replaceFirst "-USD".toList (base ++ "-USD".toList) = base := by
  induction base with
  | nil => decide
  | cons c rest ih =>
    unfold hasSubstr at h
    rw [Bool.or_eq_false_iff] at h
    show replaceFirst _ (c :: (rest ++ _)) = c :: rest
    unfold replaceFirst
    by_cases hp : ("-USD".toList).isPrefixOf (c :: (rest ++ "-USD".toList)) = true
    · rcases usd_prefix_append (c :: rest) (by simpa using hp) with h1 | h1
      · exact absurd h1 (by simp)
      · rw [h1] at h
        exact absurd h.1 (by simp)
    · rw [if_neg hp, ih h.2]

lemma charToNat_ofNat_valid (n : ℕ) (h : n.isValidChar) : (Char.ofNat n).toNat = n := by
  unfold Char.ofNat
  rw [dif_pos h]
  rfl

lemma charLower_idem (c : Char) : charLower (charLower c) = charLower c := by
  unfold charLower
  by_cases h : 65 ≤ c.toNat ∧ c.toNat ≤ 90
  · rw [if_pos h]
    have hv : (c.toNat + 32).isValidChar := Or.inl (by omega)
    have ht : (Char.ofNat (c.toNat + 32)).toNat = c.toNat + 32 := charToNat_ofNat_valid _ hv
    have h' : ¬ (65 ≤ (Char.ofNat (c.toNat + 32)).toNat ∧
        (Char.ofNat (c.toNat + 32)).toNat ≤ 90) := by
      rw [ht]
      omega
    rw [if_neg h']
  · rw [if_neg h, if_neg h]

lemma strLower_append (a b : JSStr) : strLower (a ++ b) = strLower a ++ strLower b :=
  List.map_append _ _ _

lemma strLower_idem (s : JSStr) : strLower (strLower s) = strLower s := by
  induction s with
  | nil => rfl
  | cons c rest ih =>
    simp only [strLower, List.map_cons] at ih ⊢
    rw [charLower_idem, ih]

/-! ## Claim theorems -/

/-- C5: badge assignment for the price-change widgets is a pure function of
the absolute change: `|c| ≥ 5 → STRONG HIGH`, `2 ≤ |c| < 5 → STRONG`,
`|c| < 2 → MODERATE`, both thresholds going to the higher tier, and the
top-banner classifier is the same function as the tables'. -/
theorem badge_bands_of_abs_change (c : ℚ) :
    GainersTable.getBadgeText c = GainersTable.getBadgeText |c| ∧
    TopBannerScroll.getBadgeStyle c = GainersTable.getBadgeText c ∧
    (5 ≤ |c| → GainersTable.getBadgeText c = "STRONG HIGH".toList) ∧
    (2 ≤ |c| ∧ |c| < 5 → GainersTable.getBadgeText c = "STRONG".toList) ∧
    (|c| < 2 → GainersTable.getBadgeText c = "MODERATE".toList) := by
  refine ⟨?_, rfl, ?_, ?_, ?_⟩
  · unfold GainersTable.getBadgeText
    rw [abs_abs]
  · intro h
    unfold GainersTable.getBadgeText
    rw [if_pos h]
  · rintro ⟨h1, h2⟩
    unfold GainersTable.getBadgeText
    rw [if_neg (not_le.mpr h2), if_pos h1]
  · intro h
    unfold GainersTable.getBadgeText
    rw [if_neg (not_le.mpr (by linarith)), if_neg (not_le.mpr h)]

/-- Witness for `badge_bands_of_abs_change`: both boundaries land in the
higher tier, and a small change is MODERATE. -/
theorem badge_bands_of_abs_change_witness :
    (5 ≤ |(5 : ℚ)| ∧ GainersTable.getBadgeText 5 = "STRONG HIGH".toList) ∧
    (2 ≤ |(2 : ℚ)| ∧ |(2 : ℚ)| < 5 ∧ GainersTable.getBadgeText 2 = "STRONG".toList) ∧
    (|(-1 : ℚ)| < 2 ∧ GainersTable.getBadgeText (-1) = "MODERATE".toList) :=
  ⟨⟨by norm_num, (badge_bands_of_abs_change 5).2.2.1 (by norm_num)⟩,
   ⟨by norm_num, by norm_num,
    (badge_bands_of_abs_change 2).2.2.2.1 ⟨by norm_num, by norm_num⟩⟩,
   ⟨by norm_num, (badge_bands_of_abs_change (-1)).2.2.2.2 (by norm_num)⟩⟩

/-- C6: the 1-hour volume banner classifies by traded volume with the three
inclusive thresholds 10,000,000 / 1,000,000 / 100,000. -/
theorem volume_badge_bands (v : ℚ) :
    (10000000 ≤ v → BottomBannerScroll.getBadgeStyle v = "HIGH VOL".toList) ∧
    (1000000 ≤ v ∧ v < 10000000 → BottomBannerScroll.getBadgeStyle v = "MODERATE".toList) ∧
    (100000 ≤ v ∧ v < 1000000 → BottomBannerScroll.getBadgeStyle v = "STRONG".toList) ∧
    (v < 100000 → BottomBannerScroll.getBadgeStyle v = "LOW VOL".toList) := by
  refine ⟨?_, ?_, ?_, ?_⟩
  · intro h
    unfold BottomBannerScroll.getBadgeStyle
    rw [if_pos h]
  · rintro ⟨h1, h2⟩
    unfold BottomBannerScroll.getBadgeStyle
    rw [if_neg (not_le.mpr h2), if_pos h1]
  · rintro ⟨h1, h2⟩
    unfold BottomBannerScroll.getBadgeStyle
    rw [if_neg (not_le.mpr (by linarith)), if_neg (not_le.mpr h2), if_pos h1]
  · intro h
    unfold BottomBannerScroll.getBadgeStyle
    rw [if_neg (not_le.mpr (by linarith)), if_neg (not_le.mpr (by linarith)),
      if_neg (not_le.mpr h)]

/-- Witness for `volume_badge_bands` at the three boundaries and below. -/
theorem volume_badge_bands_witness :
    (10000000 ≤ (10000000 : ℚ) ∧
      BottomBannerScroll.getBadgeStyle 10000000 = "HIGH VOL".toList) ∧
    (1000000 ≤ (1000000 : ℚ) ∧ (1000000 : ℚ) < 10000000 ∧
      BottomBannerScroll.getBadgeStyle 1000000 = "MODERATE".toList) ∧
    (100000 ≤ (100000 : ℚ) ∧ (100000 : ℚ) < 1000000 ∧
      BottomBannerScroll.getBadgeStyle 100000 = "STRONG".toList) ∧
    ((99999 : ℚ) < 100000 ∧ BottomBannerScroll.getBadgeStyle 99999 = "LOW VOL".toList) :=
  ⟨⟨by norm_num, (volume_badge_bands 10000000).1 (by norm_num)⟩,
   ⟨by norm_num, by norm_num, (volume_badge_bands 1000000).2.1 ⟨by norm_num, by norm_num⟩⟩,
   ⟨by norm_num, by norm_num, (volume_badge_bands 100000).2.2.1 ⟨by norm_num, by norm_num⟩⟩,
   ⟨by norm_num, (volume_badge_bands 99999).2.2.2 (by norm_num)⟩⟩

lemma countdown_foldl_bounds (evs : List App.CountdownEvent) :
    ∀ c : ℤ, 1 ≤ c → c ≤ 30 →
      1 ≤ evs.foldl App.countdownStep c ∧ evs.foldl App.countdownStep c ≤ 30 := by
  induction evs with
  | nil => intro c h1 h2; exact ⟨h1, h2⟩
  | cons e rest ih =>
    intro c h1 h2
    rw [List.foldl_cons]
    have h30 : App.POLL_INTERVAL / 1000 = 30 := by decide
    have hstep : 1 ≤ App.countdownStep c e ∧ App.countdownStep c e ≤ 30 := by
      cases e with
      | secondTick =>
        simp only [App.countdownStep]
        rw [h30]
        refine ⟨?_, ?_⟩ <;> (split <;> omega)
      | refreshTick =>
        simp only [App.countdownStep]
        rw [h30]
        omega
      | manualRefresh =>
        simp only [App.countdownStep]
        rw [h30]
        omega
    exact ih _ hstep.1 hstep.2

/-- C10: the AppShell countdown stays in `[1, 30]` under every interleaving of
second ticks, 30-second refresh ticks, and manual refreshes; in particular it
never reaches 0. -/
theorem countdown_in_range (evs : List App.CountdownEvent) :
    1 ≤ App.runCountdown evs ∧ App.runCountdown evs ≤ 30 := by
  unfold App.runCountdown
  exact countdown_foldl_bounds evs _ (by decide) (by decide)

/-- C2: with no prior successful fetch (the initial state), a thrown fetch
error makes every widget display its own hardcoded, non-empty fallback rows. -/
theorem first_failure_shows_fallback :
    (GainersTable.step GainersTable.init .failure).data = GainersTable.fallbackData ∧
    GainersTable.fallbackData ≠ [] ∧
    (LosersTable.step LosersTable.init .failure).data = LosersTable.errorFallbackData ∧
    LosersTable.errorFallbackData ≠ [] ∧
    (GainersTable1Min.step GainersTable1Min.init .failure).data
      = GainersTable1Min.errorFallbackData ∧
    GainersTable1Min.errorFallbackData ≠ [] ∧
    TopBannerScroll.step [] .failure = TopBannerScroll.fallbackData ∧
    TopBannerScroll.fallbackData ≠ [] ∧
    BottomBannerScroll.step [] .failure = BottomBannerScroll.fallbackData ∧
    BottomBannerScroll.fallbackData ≠ [] := by
  refine ⟨rfl, ?_, rfl, ?_, rfl, ?_, rfl, ?_, rfl, ?_⟩
  · simp [GainersTable.fallbackData]
  · simp [LosersTable.errorFallbackData]
  · simp [GainersTable1Min.errorFallbackData]
  · simp [TopBannerScroll.fallbackData]
  · simp [BottomBannerScroll.fallbackData]

/-- C1 counterexample: `GainersTable` does NOT preserve previously displayed
rows on a failing fetch — the `catch` branch of `fetchGainersData`
unconditionally replaces them with the hardcoded fallback rows. -/
theorem gainers_error_replaces_prior_rows :
    (GainersTable.step
        { data := [{ rank := 1, symbol := "AAA".toList, price := 1, change := 1,
                     badge := "MODERATE".toList }],
          loading := false, error := none } .failure).data
      = GainersTable.fallbackData ∧
    GainersTable.fallbackData
      ≠ [{ rank := 1, symbol := "AAA".toList, price := 1, change := 1,
           badge := "MODERATE".toList }] := by
  refine ⟨rfl, ?_⟩
  intro h
  have hlen := congrArg List.length h
  simp [GainersTable.fallbackData] at hlen

/-- C1 amended: only the two banner widgets preserve previously displayed rows
in every failure mode. The Losers and 1-minute tables preserve them on an
empty/malformed response but replace them with the fallback rows on a thrown
error; the Gainers table replaces them with the fallback rows on a thrown
error and clears them on an empty/malformed response. -/
theorem stale_data_policy (d : List Row) (v : List VolRow) (st : TableState)
    (hd : d ≠ []) (hv : v ≠ []) (hst : st.data ≠ []) :
    TopBannerScroll.step d .failure = d ∧
    TopBannerScroll.step d (.success none) = d ∧
    TopBannerScroll.step d (.success (some [])) = d ∧
    BottomBannerScroll.step v .failure = v ∧
    BottomBannerScroll.step v (.success none) = v ∧
    BottomBannerScroll.step v (.success (some [])) = v ∧
    (LosersTable.step st (.success none)).data = st.data ∧
    (LosersTable.step st (.success (some []))).data = st.data ∧
    (LosersTable.step st .failure).data = LosersTable.errorFallbackData ∧
    (GainersTable1Min.step st (.success none)).data = st.data ∧
    (GainersTable1Min.step st (.success (some []))).data = st.data ∧
    (GainersTable1Min.step st .failure).data = GainersTable1Min.errorFallbackData ∧
    (GainersTable.step st .failure).data = GainersTable.fallbackData ∧
    (GainersTable.step st (.success none)).data = [] ∧
    (GainersTable.step st (.success (some []))).data = [] := by
  have hd' : ¬ d.length = 0 := by simpa [List.length_eq_zero] using hd
  have hv' : ¬ v.length = 0 := by simpa [List.length_eq_zero] using hv
  have hst' : ¬ st.data.length = 0 := by simpa [List.length_eq_zero] using hst
  refine ⟨?_, ?_, ?_, ?_, ?_, ?_, ?_, ?_, rfl, ?_, ?_, rfl, rfl, rfl, ?_⟩
  · simp [TopBannerScroll.step, hd']
  · simp [TopBannerScroll.step, hd']
  · simp [TopBannerScroll.step, hd']
  · simp [BottomBannerScroll.step, hv']
  · simp [BottomBannerScroll.step, hv']
  · simp [BottomBannerScroll.step, hv']
  · simp [LosersTable.step, hst']
  · simp [LosersTable.step, hst']
  · simp [GainersTable1Min.step, hst']
  · simp [GainersTable1Min.step, hst']
  · simp [GainersTable.step]

/-- Witness for `stale_data_policy` at concrete non-empty states. -/
theorem stale_data_policy_witness :
    ([({ rank := 1, symbol := "AAA".toList, price := 1, change := 1,
         badge := "MODERATE".toList } : Row)] ≠ []) ∧
    ([({ rank := 1, symbol := "AAA".toList, price := 1, volume_change := 1,
         volume_24h := 5, badge := "LOW VOL".toList } : VolRow)] ≠ []) ∧
    (TableState.data
        { data := [{ rank := 1, symbol := "AAA".toList, price := 1, change := 1,
                     badge := "MODERATE".toList }],
          loading := false, error := none } ≠ []) ∧
    (TopBannerScroll.step
        [{ rank := 1, symbol := "AAA".toList, price := 1, change := 1,
           badge := "MODERATE".toList }] .failure
      = [{ rank := 1, symbol := "AAA".toList, price := 1, change := 1,
           badge := "MODERATE".toList }]) :=
  ⟨by simp, by simp, by simp,
   (stale_data_policy
     [{ rank := 1, symbol := "AAA".toList, price := 1, change := 1,
        badge := "MODERATE".toList }]
     [{ rank := 1, symbol := "AAA".toList, price := 1, volume_change := 1,
        volume_24h := 5, badge := "LOW VOL".toList }]
     { data := [{ rank := 1, symbol := "AAA".toList, price := 1, change := 1,
                  badge := "MODERATE".toList }],
       loading := false, error := none }
     (by simp) (by simp) (by simp)).1⟩

/-- C9: symbol normalization deletes the first occurrence of the literal
substring `-USD` anywhere (not just a trailing suffix): strings without the
substring are unchanged, `ABC-USDT` becomes `ABCT`, only the first of two
occurrences is removed, and a missing or empty symbol becomes `N/A`. -/
theorem symbol_normalization_first_occurrence :
    (∀ s : JSStr, hasSubstr "-USD".toList s = false → replaceFirst "-USD".toList s = s) ∧
    (∀ s : JSStr, s ≠ [] → hasSubstr "-USD".toList s = false →
      normalizeSymbol (some s) = s) ∧
    normalizeSymbol (some "ABC-USDT".toList) = "ABCT".toList ∧
    replaceFirst "-USD".toList "X-USD-USD".toList = "X-USD".toList ∧
    normalizeSymbol none = "N/A".toList ∧
    normalizeSymbol (some []) = "N/A".toList := by
  refine ⟨replaceFirst_of_not_hasSubstr _, ?_, by decide, by decide, rfl, by decide⟩
  intro s hs h
  simp only [normalizeSymbol]
  rw [replaceFirst_of_not_hasSubstr _ _ h, if_neg hs]

/-- Witness for `symbol_normalization_first_occurrence`: a plain symbol with
no `-USD` substring passes through unchanged. -/
theorem symbol_normalization_first_occurrence_witness :
    (hasSubstr "-USD".toList "SUKU".toList = false ∧
      replaceFirst "-USD".toList "SUKU".toList = "SUKU".toList) ∧
    ("SUKU".toList ≠ [] ∧ normalizeSymbol (some "SUKU".toList) = "SUKU".toList) :=
  ⟨⟨by decide, symbol_normalization_first_occurrence.1 _ (by decide)⟩,
   ⟨by decide, symbol_normalization_first_occurrence.2.1 _ (by decide) (by decide)⟩⟩

/-- C7: on a successful non-empty response the gainer/loser tables keep only
the first 7 normalized rows (a prefix of the full normalized list), the
1-minute table renders only the first 3 until expanded (and all of them once
expanded), and the banners keep at most the first 20 rows and render their row
list twice back-to-back. -/
theorem display_truncation :
    (∀ (st : TableState) (l : List RawItem), l ≠ [] →
      (GainersTable.step st (.success (some l))).data = (GainersTable.normalize l).take 7 ∧
      (GainersTable.step st (.success (some l))).data.length ≤ 7 ∧
      (GainersTable.step st (.success (some l))).data <+: GainersTable.normalize l) ∧
    (∀ (st : TableState) (l : List RawItem), l ≠ [] →
      (LosersTable.step st (.success (some l))).data = (LosersTable.normalize l).take 7 ∧
      (LosersTable.step st (.success (some l))).data.length ≤ 7) ∧
    (∀ (st : TableState) (l : List RawItem), l ≠ [] →
      (GainersTable1Min.step st (.success (some l))).data
        = (GainersTable1Min.normalize l).take 7 ∧
      (GainersTable1Min.step st (.success (some l))).data.length ≤ 7) ∧
    (∀ d : List Row, GainersTable1Min.visibleRows false d = d.take 3 ∧
      (GainersTable1Min.visibleRows false d).length ≤ 3 ∧
      GainersTable1Min.visibleRows true d = d) ∧
    (∀ (d : List Row) (l : List RawItem), l ≠ [] →
      TopBannerScroll.step d (.success (some l)) = (TopBannerScroll.normalize l).take 20 ∧
      (TopBannerScroll.step d (.success (some l))).length ≤ 20) ∧
    (∀ (v : List VolRow) (l : List RawItem), l ≠ [] →
      BottomBannerScroll.step v (.success (some l)) = (BottomBannerScroll.normalize l).take 20 ∧
      (BottomBannerScroll.step v (.success (some l))).length ≤ 20) ∧
    (∀ d : List Row, (TopBannerScroll.rendered d).take d.length = d ∧
      (TopBannerScroll.rendered d).drop d.length = d) ∧
    (∀ v : List VolRow, (BottomBannerScroll.rendered v).take v.length = v ∧
      (BottomBannerScroll.rendered v).drop v.length = v) := by
  refine ⟨?_, ?_, ?_, ?_, ?_, ?_, ?_, ?_⟩
  · intro st l h
    have hl : 0 < l.length := List.length_pos.mpr h
    have hdata : (GainersTable.step st (.success (some l))).data
        = (GainersTable.normalize l).take 7 := by
      simp [GainersTable.step, hl]
    refine ⟨hdata, ?_, ?_⟩
    · rw [hdata]
      exact List.length_take_le _ _
    · rw [hdata]
      exact List.take_prefix _ _
  · intro st l h
    have hl : 0 < l.length := List.length_pos.mpr h
    have hdata : (LosersTable.step st (.success (some l))).data
        = (LosersTable.normalize l).take 7 := by
      simp [LosersTable.step, hl]
    exact ⟨hdata, by rw [hdata]; exact List.length_take_le _ _⟩
  · intro st l h
    have hl : 0 < l.length := List.length_pos.mpr h
    have hdata : (GainersTable1Min.step st (.success (some l))).data
        = (GainersTable1Min.normalize l).take 7 := by
      simp [GainersTable1Min.step, hl]
    exact ⟨hdata, by rw [hdata]; exact List.length_take_le _ _⟩
  · intro d
    refine ⟨rfl, List.length_take_le _ _, ?_⟩
    unfold GainersTable1Min.visibleRows
    simp
  · intro d l h
    have hl : 0 < l.length := List.length_pos.mpr h
    have hdata : TopBannerScroll.step d (.success (some l))
        = (TopBannerScroll.normalize l).take 20 := by
      simp [TopBannerScroll.step, hl]
    exact ⟨hdata, by rw [hdata]; exact List.length_take_le _ _⟩
  · intro v l h
    have hl : 0 < l.length := List.length_pos.mpr h
    have hdata : BottomBannerScroll.step v (.success (some l))
        = (BottomBannerScroll.normalize l).take 20 := by
      simp [BottomBannerScroll.step, hl]
    exact ⟨hdata, by rw [hdata]; exact List.length_take_le _ _⟩
  · intro d
    exact ⟨List.take_left _ _, List.drop_left _ _⟩
  · intro v
    exact ⟨List.take_left _ _, List.drop_left _ _⟩

/-- Witness for `display_truncation` on a one-item response. -/
theorem display_truncation_witness :
    ([({ symbol := some "BTC-USD".toList } : RawItem)] ≠ []) ∧
    (GainersTable.step GainersTable.init
        (.success (some [{ symbol := some "BTC-USD".toList }]))).data
      = (GainersTable.normalize [{ symbol := some "BTC-USD".toList }]).take 7 ∧
    (TopBannerScroll.step []
        (.success (some [{ symbol := some "BTC-USD".toList }])))
      = (TopBannerScroll.normalize [{ symbol := some "BTC-USD".toList }]).take 20 :=
  ⟨by simp,
   (display_truncation.1 GainersTable.init [{ symbol := some "BTC-USD".toList }] (by simp)).1,
   (display_truncation.2.2.2.2.1 [] [{ symbol := some "BTC-USD".toList }] (by simp)).1⟩

/-- C8: for a raw symbol `base ++ "-USD"` (where `base` itself contains no
`-USD` and is non-empty), the displayed symbol is `base`, the generated
Coinbase link embeds exactly `base.toLowerCase() ++ "-USD"`, and lowercasing
that embedded pair gives the lowercase of the original raw pair. -/
theorem symbol_strip_roundtrip (base : JSStr) (h1 : base ≠ [])
    (h2 : hasSubstr "-USD".toList base = false) :
    normalizeSymbol (some (base ++ "-USD".toList)) = base ∧
    coinbaseUrl base =
      "https://www.coinbase.com/advanced-trade/spot/".toList
        ++ (strLower base ++ "-USD".toList) ∧
    strLower (strLower base ++ "-USD".toList) = strLower (base ++ "-USD".toList) := by
  refine ⟨?_, ?_, ?_⟩
  · simp only [normalizeSymbol]
    rw [replaceFirst_strip _ h2, if_neg h1]
  · unfold coinbaseUrl
    rw [List.append_assoc]
  · rw [strLower_append, strLower_append, strLower_idem]

/-- Witness for `symbol_strip_roundtrip` at `BTC-USD`. -/
theorem symbol_strip_roundtrip_witness :
    ("BTC".toList ≠ []) ∧ (hasSubstr "-USD".toList "BTC".toList = false) ∧
    normalizeSymbol (some ("BTC".toList ++ "-USD".toList)) = "BTC".toList :=
  ⟨by decide, by decide,
   (symbol_strip_roundtrip "BTC".toList (by decide) (by decide)).1⟩

/-- Package the band structure of a `toFixed`-based branch of `formatPrice`. -/
lemma formatPrice_band (q : ℚ) (d : ℕ) (hd : d ≠ 0) (h0 : 0 ≤ q)
    (heq : formatPrice (.num q) = '$' :: toFixed q d) :
    ∃ mid frac, formatPrice (.num q) = '$' :: (mid ++ '.' :: frac) ∧
      frac.length = d ∧ frac.all Char.isDigit = true ∧ mid.all Char.isDigit = true := by
  obtain ⟨mid, frac, hm, hl, hfd, hmd⟩ := toFixed_decomp_nonneg q d h0 hd
  exact ⟨mid, frac, by rw [heq, hm], hl, hfd, hmd⟩

/-- `toExponential` output always contains the `e` marker. -/
lemma toExponential_has_e (q : ℚ) (fd : ℕ) :
    ∃ m ex, toExponential q fd = m ++ 'e' :: ex := by
  unfold toExponential
  by_cases h : q = 0
  · rw [if_pos h]
    refine ⟨digitChar 0 :: (if fd = 0 then [] else '.' :: List.replicate fd '0'),
      ['+', digitChar 0], ?_⟩
    simp
  · rw [if_neg h]
    refine ⟨(if q < 0 then ['-'] else []) ++ sciMantissa (sciN q fd) fd,
      (if 0 ≤ sciE q fd then ['+'] else ['-']) ++ natChars (sciE q fd).natAbs, ?_⟩
    simp

/-- C3 counterexample: `formatPrice(0.00000996)` is NOT rendered in scientific
notation — `0.00000996 ≥ 0.000001` selects the 10-decimal `toFixed` band, so
the output is `$0.0000099600` (no `e` marker). -/
theorem formatPrice_small_value_not_scientific :
    formatPrice (.num (996 / 100000000)) = "$0.0000099600".toList ∧
    'e' ∉ "$0.0000099600".toList := by
  refine ⟨?_, by decide⟩
  norm_num [formatPrice]
  rw [toFixed_of_nonneg _ 10 99600 (by norm_num) (by norm_num)]
  decide

/-- C3 amended: non-finite input gives `N/A`; the seven `toFixed` bands give a
`$`-prefixed decimal string with exactly 2/4/5/6/8/9/10 digits after the
point; values below `0.000001` use scientific notation (`toExponential(2)`,
i.e. two digits after the mantissa's decimal point — three significant
digits); and `formatPrice(0.5) = "$0.5000"`, `formatPrice(65000) =
"$65000.00"`, `formatPrice(0.00000996) = "$0.0000099600"` (the `≥ 0.000001`
band), while `formatPrice(0.00000096) = "$9.6e-7"`-style outputs arise only
below that threshold, e.g. `formatPrice(0.000000996) = "$9.96e-7"`. -/
theorem formatPrice_spec :
    (∀ x : JSNum, x.isFinite = false → formatPrice x = "N/A".toList) ∧
    (∀ q : ℚ, 1 ≤ q → ∃ mid frac, formatPrice (.num q) = '$' :: (mid ++ '.' :: frac) ∧
      frac.length = 2 ∧ frac.all Char.isDigit = true ∧ mid.all Char.isDigit = true) ∧
    (∀ q : ℚ, 1/10 ≤ q → q < 1 → ∃ mid frac,
      formatPrice (.num q) = '$' :: (mid ++ '.' :: frac) ∧
      frac.length = 4 ∧ frac.all Char.isDigit = true ∧ mid.all Char.isDigit = true) ∧
    (∀ q : ℚ, 1/100 ≤ q → q < 1/10 → ∃ mid frac,
      formatPrice (.num q) = '$' :: (mid ++ '.' :: frac) ∧
      frac.length = 5 ∧ frac.all Char.isDigit = true ∧ mid.all Char.isDigit = true) ∧
    (∀ q : ℚ, 1/1000 ≤ q → q < 1/100 → ∃ mid frac,
      formatPrice (.num q) = '$' :: (mid ++ '.' :: frac) ∧
      frac.length = 6 ∧ frac.all Char.isDigit = true ∧ mid.all Char.isDigit = true) ∧
    (∀ q : ℚ, 1/10000 ≤ q → q < 1/1000 → ∃ mid frac,
      formatPrice (.num q) = '$' :: (mid ++ '.' :: frac) ∧
      frac.length = 8 ∧ frac.all Char.isDigit = true ∧ mid.all Char.isDigit = true) ∧
    (∀ q : ℚ, 1/100000 ≤ q → q < 1/10000 → ∃ mid frac,
      formatPrice (.num q) = '$' :: (mid ++ '.' :: frac) ∧
      frac.length = 9 ∧ frac.all Char.isDigit = true ∧ mid.all Char.isDigit = true) ∧
    (∀ q : ℚ, 1/1000000 ≤ q → q < 1/100000 → ∃ mid frac,
      formatPrice (.num q) = '$' :: (mid ++ '.' :: frac) ∧
      frac.length = 10 ∧ frac.all Char.isDigit = true ∧ mid.all Char.isDigit = true) ∧
    (∀ q : ℚ, q < 1/1000000 → ∃ m ex, formatPrice (.num q) = '$' :: (m ++ 'e' :: ex)) ∧
    formatPrice (.num (1/2)) = "$0.5000".toList ∧
    formatPrice (.num 65000) = "$65000.00".toList ∧
    formatPrice (.num (996/100000000)) = "$0.0000099600".toList ∧
    formatPrice (.num (996/1000000000)) = "$9.96e-7".toList := by
  refine ⟨?_, ?_, ?_, ?_, ?_, ?_, ?_, ?_, ?_, ?_, ?_, ?_, ?_⟩
  · intro x h
    cases x with
    | num q => simp [JSNum.isFinite] at h
    | nan => rfl
    | posInf => rfl
    | negInf => rfl
  · intro q h1
    refine formatPrice_band q 2 (by norm_num) (by linarith) ?_
    simp only [formatPrice]
    rw [if_pos h1]
  · intro q h1 h2
    refine formatPrice_band q 4 (by norm_num) (by linarith) ?_
    simp only [formatPrice]
    rw [if_neg (not_le.mpr (by linarith)), if_pos h1]
  · intro q h1 h2
    refine formatPrice_band q 5 (by norm_num) (by linarith) ?_
    simp only [formatPrice]
    rw [if_neg (not_le.mpr (by linarith)), if_neg (not_le.mpr (by linarith)), if_pos h1]
  · intro q h1 h2
    refine formatPrice_band q 6 (by norm_num) (by linarith) ?_
    simp only [formatPrice]
    rw [if_neg (not_le.mpr (by linarith)), if_neg (not_le.mpr (by linarith)),
      if_neg (not_le.mpr (by linarith)), if_pos h1]
  · intro q h1 h2
    refine formatPrice_band q 8 (by norm_num) (by linarith) ?_
    simp only [formatPrice]
    rw [if_neg (not_le.mpr (by linarith)), if_neg (not_le.mpr (by linarith)),
      if_neg (not_le.mpr (by linarith)), if_neg (not_le.mpr (by linarith)), if_pos h1]
  · intro q h1 h2
    refine formatPrice_band q 9 (by norm_num) (by linarith) ?_
    simp only [formatPrice]
    rw [if_neg (not_le.mpr (by linarith)), if_neg (not_le.mpr (by linarith)),
      if_neg (not_le.mpr (by linarith)), if_neg (not_le.mpr (by linarith)),
      if_neg (not_le.mpr (by linarith)), if_pos h1]
  · intro q h1 h2
    refine formatPrice_band q 10 (by norm_num) (by linarith) ?_
    simp only [formatPrice]
    rw [if_neg (not_le.mpr (by linarith)), if_neg (not_le.mpr (by linarith)),
      if_neg (not_le.mpr (by linarith)), if_neg (not_le.mpr (by linarith)),
      if_neg (not_le.mpr (by linarith)), if_neg (not_le.mpr (by linarith)), if_pos h1]
  · intro q h1
    have heq : formatPrice (.num q) = '$' :: toExponential q 2 := by
      simp only [formatPrice]
      rw [if_neg (not_le.mpr (by linarith)), if_neg (not_le.mpr (by linarith)),
        if_neg (not_le.mpr (by linarith)), if_neg (not_le.mpr (by linarith)),
        if_neg (not_le.mpr (by linarith)), if_neg (not_le.mpr (by linarith)),
        if_neg (not_le.mpr (by linarith))]
    obtain ⟨m, ex, hm⟩ := toExponential_has_e q 2
    exact ⟨m, ex, by rw [heq, hm]⟩
  · norm_num [formatPrice]
    rw [toFixed_of_nonneg (1/2) 4 5000 (by norm_num) (by norm_num)]
    decide
  · norm_num [formatPrice]
    rw [toFixed_of_nonneg 65000 2 6500000 (by norm_num) (by norm_num)]
    decide
  · norm_num [formatPrice]
    rw [toFixed_of_nonneg _ 10 99600 (by norm_num) (by norm_num)]
    decide
  · norm_num [formatPrice]
    rw [toExponential_of_small _ 2 1004017 996 (by norm_num) (by norm_num)
      (Int.ceil_eq_iff.mpr ⟨by norm_num, by norm_num⟩)
      (by rw [show clog10 1004017 = 7 from by decide]; norm_num)
      (by decide) (by decide)]
    decide

/-- Witness for `formatPrice_spec`: one value in each band. -/
theorem formatPrice_spec_witness :
    (JSNum.isFinite .nan = false ∧ formatPrice .nan = "N/A".toList) ∧
    (1 ≤ (65000 : ℚ) ∧ ∃ mid frac,
      formatPrice (.num 65000) = '$' :: (mid ++ '.' :: frac) ∧
      frac.length = 2 ∧ frac.all Char.isDigit = true ∧ mid.all Char.isDigit = true) ∧
    (1/10 ≤ (1/2 : ℚ) ∧ (1/2 : ℚ) < 1 ∧ ∃ mid frac,
      formatPrice (.num (1/2)) = '$' :: (mid ++ '.' :: frac) ∧
      frac.length = 4 ∧ frac.all Char.isDigit = true ∧ mid.all Char.isDigit = true) ∧
    (1/100 ≤ (1/20 : ℚ) ∧ (1/20 : ℚ) < 1/10 ∧ ∃ mid frac,
      formatPrice (.num (1/20)) = '$' :: (mid ++ '.' :: frac) ∧
      frac.length = 5 ∧ frac.all Char.isDigit = true ∧ mid.all Char.isDigit = true) ∧
    (1/1000 ≤ (1/200 : ℚ) ∧ (1/200 : ℚ) < 1/100 ∧ ∃ mid frac,
      formatPrice (.num (1/200)) = '$' :: (mid ++ '.' :: frac) ∧
      frac.length = 6 ∧ frac.all Char.isDigit = true ∧ mid.all Char.isDigit = true) ∧
    (1/10000 ≤ (1/2000 : ℚ) ∧ (1/2000 : ℚ) < 1/1000 ∧ ∃ mid frac,
      formatPrice (.num (1/2000)) = '$' :: (mid ++ '.' :: frac) ∧
      frac.length = 8 ∧ frac.all Char.isDigit = true ∧ mid.all Char.isDigit = true) ∧
    (1/100000 ≤ (1/20000 : ℚ) ∧ (1/20000 : ℚ) < 1/10000 ∧ ∃ mid frac,
      formatPrice (.num (1/20000)) = '$' :: (mid ++ '.' :: frac) ∧
      frac.length = 9 ∧ frac.all Char.isDigit = true ∧ mid.all Char.isDigit = true) ∧
    (1/1000000 ≤ (1/200000 : ℚ) ∧ (1/200000 : ℚ) < 1/100000 ∧ ∃ mid frac,
      formatPrice (.num (1/200000)) = '$' :: (mid ++ '.' :: frac) ∧
      frac.length = 10 ∧ frac.all Char.isDigit = true ∧ mid.all Char.isDigit = true) ∧
    ((996/1000000000 : ℚ) < 1/1000000 ∧ ∃ m ex,
      formatPrice (.num (996/1000000000)) = '$' :: (m ++ 'e' :: ex)) :=
  ⟨⟨rfl, formatPrice_spec.1 .nan rfl⟩,
   ⟨by norm_num, formatPrice_spec.2.1 65000 (by norm_num)⟩,
   ⟨by norm_num, by norm_num, formatPrice_spec.2.2.1 (1/2) (by norm_num) (by norm_num)⟩,
   ⟨by norm_num, by norm_num, formatPrice_spec.2.2.2.1 (1/20) (by norm_num) (by norm_num)⟩,
   ⟨by norm_num, by norm_num, formatPrice_spec.2.2.2.2.1 (1/200) (by norm_num) (by norm_num)⟩,
   ⟨by norm_num, by norm_num,
    formatPrice_spec.2.2.2.2.2.1 (1/2000) (by norm_num) (by norm_num)⟩,
   ⟨by norm_num, by norm_num,
    formatPrice_spec.2.2.2.2.2.2.1 (1/20000) (by norm_num) (by norm_num)⟩,
   ⟨by norm_num, by norm_num,
    formatPrice_spec.2.2.2.2.2.2.2.1 (1/200000) (by norm_num) (by norm_num)⟩,
   ⟨by norm_num, formatPrice_spec.2.2.2.2.2.2.2.2.1 (996/1000000000) (by norm_num)⟩⟩

/-- Package the band structure of a branch of `formatPercentage`. -/
lemma formatPercentage_band (q : ℚ) (d : ℕ) (hd : d ≠ 0)
    (heq : formatPercentage (.num q) = toFixed q d ++ ['%']) :
    ∃ mid frac, formatPercentage (.num q) = mid ++ '.' :: (frac ++ ['%']) ∧
      frac.length = d ∧ frac.all Char.isDigit = true ∧
      mid.all (fun c => c.isDigit || c = '-') = true := by
  obtain ⟨mid, frac, hm, hl, hfd, hmd⟩ := toFixed_decomp q d hd
  refine ⟨mid, frac, ?_, hl, hfd, hmd⟩
  rw [heq, hm]
  simp

/-- C4: non-finite input gives `N/A`, zero gives `0.00%`, and otherwise the
value is rendered with 1/2/3/4/5 decimals by the five `|v|` bands, suffixed
with `%`; with the spec's four examples evaluated. -/
theorem formatPercentage_spec :
    (∀ x : JSNum, x.isFinite = false → formatPercentage x = "N/A".toList) ∧
    formatPercentage (.num 0) = "0.00%".toList ∧
    (∀ q : ℚ, 10 ≤ |q| → ∃ mid frac,
      formatPercentage (.num q) = mid ++ '.' :: (frac ++ ['%']) ∧
      frac.length = 1 ∧ frac.all Char.isDigit = true ∧
      mid.all (fun c => c.isDigit || c = '-') = true) ∧
    (∀ q : ℚ, 1 ≤ |q| → |q| < 10 → ∃ mid frac,
      formatPercentage (.num q) = mid ++ '.' :: (frac ++ ['%']) ∧
      frac.length = 2 ∧ frac.all Char.isDigit = true ∧
      mid.all (fun c => c.isDigit || c = '-') = true) ∧
    (∀ q : ℚ, 1/10 ≤ |q| → |q| < 1 → ∃ mid frac,
      formatPercentage (.num q) = mid ++ '.' :: (frac ++ ['%']) ∧
      frac.length = 3 ∧ frac.all Char.isDigit = true ∧
      mid.all (fun c => c.isDigit || c = '-') = true) ∧
    (∀ q : ℚ, 1/100 ≤ |q| → |q| < 1/10 → ∃ mid frac,
      formatPercentage (.num q) = mid ++ '.' :: (frac ++ ['%']) ∧
      frac.length = 4 ∧ frac.all Char.isDigit = true ∧
      mid.all (fun c => c.isDigit || c = '-') = true) ∧
    (∀ q : ℚ, 0 < |q| → |q| < 1/100 → ∃ mid frac,
      formatPercentage (.num q) = mid ++ '.' :: (frac ++ ['%']) ∧
      frac.length = 5 ∧ frac.all Char.isDigit = true ∧
      mid.all (fun c => c.isDigit || c = '-') = true) ∧
    formatPercentage (.num (523/100)) = "5.23%".toList ∧
    formatPercentage (.num (128/10)) = "12.8%".toList ∧
    formatPercentage (.num (-(32/10000))) = "-0.00320%".toList := by
  refine ⟨?_, ?_, ?_, ?_, ?_, ?_, ?_, ?_, ?_, ?_⟩
  · intro x h
    cases x with
    | num q => simp [JSNum.isFinite] at h
    | nan => rfl
    | posInf => rfl
    | negInf => rfl
  · norm_num [formatPercentage]
  · intro q h1
    refine formatPercentage_band q 1 (by norm_num) ?_
    simp only [formatPercentage]
    rw [if_pos h1]
  · intro q h1 h2
    refine formatPercentage_band q 2 (by norm_num) ?_
    simp only [formatPercentage]
    rw [if_neg (not_le.mpr h2), if_pos h1]
  · intro q h1 h2
    refine formatPercentage_band q 3 (by norm_num) ?_
    simp only [formatPercentage]
    rw [if_neg (not_le.mpr (by linarith)), if_neg (not_le.mpr h2), if_pos h1]
  · intro q h1 h2
    refine formatPercentage_band q 4 (by norm_num) ?_
    simp only [formatPercentage]
    rw [if_neg (not_le.mpr (by linarith)), if_neg (not_le.mpr (by linarith)),
      if_neg (not_le.mpr h2), if_pos h1]
  · intro q h1 h2
    refine formatPercentage_band q 5 (by norm_num) ?_
    simp only [formatPercentage]
    rw [if_neg (not_le.mpr (by linarith)), if_neg (not_le.mpr (by linarith)),
      if_neg (not_le.mpr (by linarith)), if_neg (not_le.mpr h2), if_pos h1]
  · norm_num [formatPercentage, abs_of_pos]
    rw [toFixed_of_nonneg _ 2 523 (by norm_num) (by norm_num)]
    decide
  · norm_num [formatPercentage, abs_of_pos]
    rw [toFixed_of_nonneg _ 1 128 (by norm_num) (by norm_num)]
    decide
  · norm_num [formatPercentage, abs_of_neg]
    rw [toFixed_of_neg _ 5 320 (by norm_num) (by norm_num)]
    decide

/-- Witness for `formatPercentage_spec`: one value in each band, including the
negative 5-decimal example. -/
theorem formatPercentage_spec_witness :
    (JSNum.isFinite .posInf = false ∧ formatPercentage .posInf = "N/A".toList) ∧
    (10 ≤ |(128/10 : ℚ)| ∧ ∃ mid frac,
      formatPercentage (.num (128/10)) = mid ++ '.' :: (frac ++ ['%']) ∧
      frac.length = 1 ∧ frac.all Char.isDigit = true ∧
      mid.all (fun c => c.isDigit || c = '-') = true) ∧
    (1 ≤ |(523/100 : ℚ)| ∧ |(523/100 : ℚ)| < 10 ∧ ∃ mid frac,
      formatPercentage (.num (523/100)) = mid ++ '.' :: (frac ++ ['%']) ∧
      frac.length = 2 ∧ frac.all Char.isDigit = true ∧
      mid.all (fun c => c.isDigit || c = '-') = true) ∧
    (1/10 ≤ |(-(1/2) : ℚ)| ∧ |(-(1/2) : ℚ)| < 1 ∧ ∃ mid frac,
      formatPercentage (.num (-(1/2))) = mid ++ '.' :: (frac ++ ['%']) ∧
      frac.length = 3 ∧ frac.all Char.isDigit = true ∧
      mid.all (fun c => c.isDigit || c = '-') = true) ∧
    (1/100 ≤ |(1/20 : ℚ)| ∧ |(1/20 : ℚ)| < 1/10 ∧ ∃ mid frac,
      formatPercentage (.num (1/20)) = mid ++ '.' :: (frac ++ ['%']) ∧
      frac.length = 4 ∧ frac.all Char.isDigit = true ∧
      mid.all (fun c => c.isDigit || c = '-') = true) ∧
    (0 < |(-(32/10000) : ℚ)| ∧ |(-(32/10000) : ℚ)| < 1/100 ∧ ∃ mid frac,
      formatPercentage (.num (-(32/10000))) = mid ++ '.' :: (frac ++ ['%']) ∧
      frac.length = 5 ∧ frac.all Char.isDigit = true ∧
      mid.all (fun c => c.isDigit || c = '-') = true) :=
  ⟨⟨rfl, formatPercentage_spec.1 .posInf rfl⟩,
   ⟨by norm_num [abs_of_pos],
    formatPercentage_spec.2.2.1 (128/10) (by norm_num [abs_of_pos])⟩,
   ⟨by norm_num [abs_of_pos], by norm_num [abs_of_pos],
    formatPercentage_spec.2.2.2.1 (523/100) (by norm_num [abs_of_pos])
      (by norm_num [abs_of_pos])⟩,
   ⟨by norm_num [abs_of_neg], by norm_num [abs_of_neg],
    formatPercentage_spec.2.2.2.2.1 (-(1/2)) (by norm_num [abs_of_neg])
      (by norm_num [abs_of_neg])⟩,
   ⟨by norm_num [abs_of_pos], by norm_num [abs_of_pos],
    formatPercentage_spec.2.2.2.2.2.1 (1/20) (by norm_num [abs_of_pos])
      (by norm_num [abs_of_pos])⟩,
   ⟨by norm_num [abs_of_neg], by norm_num [abs_of_neg],
    formatPercentage_spec.2.2.2.2.2.2.1 (-(32/10000)) (by norm_num [abs_of_neg])
      (by norm_num [abs_of_neg])⟩⟩
